import Mathlib

/-!
Shallow embedding of the ritual-card repository.

* Api.GET models the avatar-relay route handler (src/unnamed/part_000).
* Card models the card-generator component of src/unnamed/part_001, whose
  generateCard, reset, renderCardBlob, anchorDownload and download also
  appear, textually identically up to the iOS delivery tail, as the second
  component of src/app/page.js.
* PageV1.download models the first download variant of src/app/page.js
  (lines 181-238).

JS platform functions used by the sources (URL parsing, String trim and
replace, encodeURIComponent, toFixed) are modelled by small executable
Lean functions, each documented at its definition.
-/

/-- Whitespace recognised by the model of String.prototype.trim: the ASCII
subset of the JS WhiteSpace and LineTerminator productions. -/
def isJsWhite (c : Char) : Bool :=
  c = ' ' || c = '\t' || c = '\n' || c = '\r'

/-- Model of String.prototype.trim on char lists. -/
def jsTrimL (cs : List Char) : List Char :=
  ((cs.dropWhile isJsWhite).reverse.dropWhile isJsWhite).reverse

/-- Model of String.prototype.trim. -/
def jsTrim (s : String) : String := String.mk (jsTrimL s.data)

/-- Model of s.replace("@", ""): JS String.replace with a string pattern
replaces only the first occurrence. -/
def removeFirstAt : List Char → List Char
  | [] => []
  | c :: cs => if c = '@' then cs else c :: removeFirstAt cs

/-- The handle normalisation inlined in generateCard:
handle.replace("@", "").trim(). -/
def normalizeHandle (s : String) : String :=
  String.mk (jsTrimL (removeFirstAt s.data))

/-- Spec-side reading of "the input with the at-sign stripped": the first
occurrence of the at-sign deleted. -/
def stripAt (s : String) : String := String.mk (s.data.erase '@')

/-- Whether the string has a leading at-sign. -/
def headIsAt (s : String) : Bool := s.data.take 1 == ['@']

/-- Model of JS String.replace with a general string pattern: replace the
first occurrence of pat by rep. -/
def replaceFirstSub (pat rep : List Char) : List Char → List Char
  | [] => []
  | c :: cs =>
    if (c :: cs).take pat.length = pat then rep ++ (c :: cs).drop pat.length
    else c :: replaceFirstSub pat rep cs

/-- Model of JS String.prototype.endsWith. -/
def strEndsWith (s suf : String) : Bool :=
  s.data.reverse.take suf.data.length == suf.data.reverse

/-- Uppercase hex digit for the percent-encoding model, for n below 16. -/
def hexDigit (n : Nat) : Char :=
  if n < 10 then Char.ofNat (48 + n) else Char.ofNat (55 + n)

/-- Model of the platform encodeURIComponent restricted to ASCII code
points: keeps the unreserved characters of the ECMAScript definition (the
apostrophe, also unreserved there, is omitted from this model) and
percent-encodes every other code point. -/
def encodeURIComponentModel (s : String) : String :=
  String.mk ((s.data.map (fun c =>
    if c.isAlphanum || c = '-' || c = '_' || c = '.' || c = '!' || c = '~' ||
        c = '*' || c = '(' || c = ')'
    then [c]
    else ['%', hexDigit (c.toNat / 16 % 16), hexDigit (c.toNat % 16)])).flatten)

/-- Model of (new URL(s)).hostname of the WHATWG URL platform parser,
restricted to the hierarchical scheme://host URLs this application relays:
requires an alphabetic scheme followed by "://", takes the authority up to
the first "/", "?" or "#", drops any userinfo and port, lowercases the
host, and returns none (the parser throwing) when scheme or host is
missing. -/
def jsHostname (s : String) : Option String :=
  let cs := s.data
  let scheme := cs.takeWhile Char.isAlpha
  if scheme.isEmpty then none
  else if (cs.drop scheme.length).take 3 = [':', '/', '/'] then
    let auth := ((cs.drop scheme.length).drop 3).takeWhile
      (fun c => c != '/' && c != '?' && c != '#')
    let hostPort := (auth.reverse.takeWhile (fun c => c != '@')).reverse
    let host := hostPort.takeWhile (fun c => c != ':')
    if host.isEmpty then none else some (String.mk (host.map Char.toLower))
  else none

/-- Upstream fetch response as seen by the relay: the ok flag, the numeric
status, the content-type header (none when absent), and the body bytes
(none models arrayBuffer() throwing). -/
structure UpstreamResp where
  ok : Bool
  status : Nat
  contentType : Option String
  body : Option (List Nat)
deriving DecidableEq, Repr

/-- Outcome of the server-side fetch performed in the relay try block. -/
inductive FetchOutcome where
  | throws : FetchOutcome
  | returns : UpstreamResp → FetchOutcome
deriving DecidableEq, Repr

/-- Body of a relay response: a plain-text message or the relayed bytes. -/
inductive RelayBody where
  | text : String → RelayBody
  | bytes : List Nat → RelayBody
deriving DecidableEq, Repr

/-- Observable relay response: status, body, headers, and whether the
upstream fetch was performed at all. -/
structure RelayResponse where
  status : Nat
  body : RelayBody
  headers : List (String × String)
  fetched : Bool
deriving DecidableEq, Repr

namespace Api

/-- The relay allow-list (src/unnamed/part_000, lines 12-18). -/
def allowedHosts : List String :=
  ["pbs.twimg.com", "abs.twimg.com", "twimg.com", "video.twimg.com", "ton.twimg.com"]

/-- The isAllowed check (lines 27-28): set membership, or equality or
dot-suffix match against some allow-list entry. -/
def hostAllowed (host : String) : Bool :=
  allowedHosts.contains host ||
    allowedHosts.any (fun h => host == h || strEndsWith host ("." ++ h))

/-- Line 48: upstream.headers.get("content-type") with an or-default of
"image/jpeg"; the JS or also replaces an empty string, "" being falsy. -/
def effectiveContentType : Option String → String
  | none => "image/jpeg"
  | some s => if s = "" then "image/jpeg" else s

/-- The response produced inside the try block once the host is allowed
(lines 34-64): 500 when the fetch (or the body read) throws, 502 when the
upstream response is not ok, otherwise 200 with the relayed bytes and the
content-type, cache-control and access-control-allow-origin headers. -/
def upstreamResponse (f : FetchOutcome) : RelayResponse :=
  match f with
  | .throws =>
    { status := 500, body := .text "Proxy failed", headers := [], fetched := true }
  | .returns r =>
    if r.ok = true then
      match r.body with
      | none =>
        { status := 500, body := .text "Proxy failed", headers := [], fetched := true }
      | some bs =>
        { status := 200, body := .bytes bs,
          headers := [("content-type", effectiveContentType r.contentType),
                      ("cache-control", "public, max-age=3600, s-maxage=3600"),
                      ("access-control-allow-origin", "*")],
          fetched := true }
    else
      { status := 502, body := .text ("Upstream error: " ++ toString r.status),
        headers := [], fetched := true }

/-- The GET handler of src/unnamed/part_000, as a function of the url query
parameter (none when absent; the source tests falsiness, so the empty
string also counts as missing) and of the upstream fetch outcome. -/
def GET (urlParam : Option String) (f : FetchOutcome) : RelayResponse :=
  match urlParam with
  | none =>
    { status := 400, body := .text "Missing url param", headers := [], fetched := false }
  | some url =>
    if url = "" then
      { status := 400, body := .text "Missing url param", headers := [], fetched := false }
    else
      match jsHostname url with
      | none =>
        { status := 400, body := .text "Invalid url", headers := [], fetched := false }
      | some host =>
        if hostAllowed host = true then upstreamResponse f
        else
          { status := 403, body := .text "Host not allowed", headers := [], fetched := false }

end Api

/-- Model of (num / den).toFixed(1) for a nonnegative integer num and a
positive den, evaluated on the exact rational value with the ECMAScript
tie rule (a tie picks the larger digit). In JS the quotient is a binary
double, so an exact tie can round either way depending on the nearest
double; the properties proved below do not hinge on any tie. -/
def jsToFixed1 (num den : Nat) : String :=
  toString ((10 * num + den / 2) / den / 10) ++ "." ++
    toString ((10 * num + den / 2) / den % 10)

/-- fmtNum (src/app/page.js lines 47-52, src/unnamed/part_001 lines 48-53);
none models both null and undefined. -/
def fmtNum : Option Int → String
  | none => "—"
  | some n =>
    if 1000000 ≤ n then jsToFixed1 n.toNat 1000000 ++ "M"
    else if 1000 ≤ n then jsToFixed1 n.toNat 1000 ++ "K"
    else toString n

/-- Spec-side: the number of tenths in a / den, rounded to the nearest
integer (ties up), as a natural number. -/
def specTenths (a den : Nat) : Nat := (round ((a : ℚ) / (den : ℚ))).toNat

/-- Spec-side rendering of "a / scale rounded to one decimal place", where
den is scale / 10: integer part, a dot, then the tenths digit. -/
def specRound1 (a den : Nat) : String :=
  toString (specTenths a den / 10) ++ "." ++ toString (specTenths a den % 10)

/-- One role-configuration entry. -/
structure RoleCfg where
  stars : Nat
  rarity : String
  emoji : String
  color : String
  colorDark : String
deriving DecidableEq, Repr

/-- roleConfig (src/app/page.js lines 21-28, src/unnamed/part_001 lines
24-31). -/
def roleConfig : String → Option RoleCfg
  | "Initiate" =>
    some { stars := 1, rarity := "INITIATE", emoji := "🌱", color := "#2ECC71", colorDark := "#1A7A3A" }
  | "Ritty Bitty" =>
    some { stars := 2, rarity := "COMMON", emoji := "🐱", color := "#88BBFF", colorDark := "#4488CC" }
  | "Ritty" =>
    some { stars := 3, rarity := "RARE", emoji := "🕯️", color := "#AA66FF", colorDark := "#553399" }
  | "Mage" =>
    some { stars := 3, rarity := "MAGE", emoji := "🔮", color := "#CC44FF", colorDark := "#6622AA" }
  | "Ritualist" =>
    some { stars := 4, rarity := "EPIC", emoji := "🔥", color := "#FF8833", colorDark := "#CC4400" }
  | "Radiant Ritualist" =>
    some { stars := 5, rarity := "LEGENDARY", emoji := "✦", color := "#FFD700", colorDark := "#996600" }
  | _ => none

/-- The profile record held in component state. -/
structure ProfileRecord where
  username : String
  displayName : String
  avatarUrl : String
  bio : String
  followers : Option Int
  following : Option Int
  tweets : Option Int
deriving DecidableEq, Repr

/-- The optional fields of the upstream profile JSON consulted by
generateCard. avatarNestedUrl models u.avatar and u.avatar.url. -/
structure UserData where
  name : Option String
  avatar_url : Option String
  profile_image_url_https : Option String
  profile_image_url : Option String
  avatarNestedUrl : Option String
  description : Option String
  bio : Option String
  followers_count : Option Int
  followers : Option Int
  following_count : Option Int
  friends_count : Option Int
  statuses_count : Option Int
  tweet_count : Option Int
deriving DecidableEq, Repr

/-- Outcome of the profile fetch: the fetch throws, or a response with an
ok flag and a parse result (outer none: res.json() throws; inner option:
the user field of the parsed object, which may be absent). -/
inductive ProfileFetch where
  | throws : ProfileFetch
  | resp : Bool → Option (Option UserData) → ProfileFetch
deriving DecidableEq, Repr

/-- JS or with a string default: the default is used when the value is
absent or the empty string, both falsy. -/
def jsOrS (x : Option String) (d : String) : String :=
  match x with
  | none => d
  | some s => if s = "" then d else s

/-- JS nullish coalescing on optional numbers. -/
def jsCoalesce (x y : Option Int) : Option Int :=
  match x with
  | none => y
  | some v => some v

namespace Card

/-- The record generateCard computes (src/unnamed/part_001 lines 223-244):
defaults for the normalized username, enriched from the response only when
the fetch chain succeeds end to end and a user object is present. -/
def defaultProfile (username : String) : ProfileRecord :=
  { username := username, displayName := username, avatarUrl := "",
    bio := "Stay Ritualized", followers := none, following := none, tweets := none }

/-- The try block of generateCard: any throw (network failure, non-ok
status rethrown as "not found", json parse failure) is swallowed, leaving
the defaults; an absent user field also leaves the defaults. -/
def resolveProfile (username : String) (f : ProfileFetch) : ProfileRecord :=
  match f with
  | .throws => defaultProfile username
  | .resp ok json =>
    if ok = true then
      match json with
      | none => defaultProfile username
      | some none => defaultProfile username
      | some (some u) =>
        let displayName := jsOrS u.name username
        let avatarUrl := jsOrS u.avatar_url (jsOrS u.profile_image_url_https
          (jsOrS u.profile_image_url (jsOrS u.avatarNestedUrl "")))
        let avatarUrl := if avatarUrl = "" then avatarUrl else
          String.mk (replaceFirstSub "_normal".data "_400x400".data avatarUrl.data)
        let avatarUrl := if avatarUrl = "" then avatarUrl else
          "/api/img?url=" ++ encodeURIComponentModel avatarUrl
        { username := username, displayName := displayName, avatarUrl := avatarUrl,
          bio := jsOrS u.description (jsOrS u.bio "Stay Ritualized"),
          followers := jsCoalesce u.followers_count u.followers,
          following := jsCoalesce u.following_count u.friends_count,
          tweets := jsCoalesce u.statuses_count u.tweet_count }
    else defaultProfile username

/-- Component state relevant to generateCard, reset and download. -/
structure UIState where
  handle : String
  selectedRole : String
  loading : Bool
  exporting : Bool
  exportStatus : String
  error : String
  profile : ProfileRecord
  showCard : Bool
deriving DecidableEq, Repr

/-- The initial profile state (src/unnamed/part_001 lines 202-205). -/
def initialProfile : ProfileRecord :=
  { username := "", displayName := "USERNAME", avatarUrl := "",
    bio := "Stay Ritualized", followers := none, following := none, tweets := none }

/-- The initial component state (lines 195-207). -/
def initialState : UIState :=
  { handle := "", selectedRole := "", loading := false, exporting := false,
    exportStatus := "", error := "", profile := initialProfile, showCard := false }

/-- generateCard (src/unnamed/part_001 lines 215-247, src/app/page.js lines
115-162 and 1065-1097) as a transformer of the component state, returning
the end state and whether the profile fetch was attempted. The validation
path returns before any network call; otherwise the resolved record is
stored and the card is shown. -/
def generateCard (s : UIState) (f : ProfileFetch) : UIState × Bool :=
  let s0 : UIState := { s with error := "" }
  let username := normalizeHandle s.handle
  if username = "" then
    ({ s0 with error := "Please enter your X/Twitter username" }, false)
  else if s.selectedRole = "" then
    ({ s0 with error := "Please select your role" }, false)
  else
    ({ s0 with loading := false, profile := resolveProfile username f,
               showCard := true }, true)

/-- reset (src/unnamed/part_001 lines 249-258): hides the card, clears the
handle, role, error and export status, and restores the initial profile.
It does not touch the loading or exporting flags. -/
def reset (s : UIState) : UIState :=
  { s with showCard := false, handle := "", selectedRole := "", error := "",
           exportStatus := "", profile := initialProfile }

/-- The card view bound by the JSX (src/unnamed/part_001 lines 430-505):
the rarity badge and star count come from the role configuration, the
texts from the profile record; the bio falls back to the slogan when
falsy, and the role label is the selected role uppercased. -/
structure CardView where
  rarityBadge : String
  nameText : String
  handleText : String
  starCount : Nat
  roleLabel : String
  followersShown : Bool
  followersText : String
  bioText : String
deriving DecidableEq, Repr

/-- Pure binding of (profile, selected role, role config) to the card. -/
def renderCard (p : ProfileRecord) (selectedRole : String) (cfg : RoleCfg) : CardView :=
  { rarityBadge := cfg.rarity, nameText := p.displayName,
    handleText := "@" ++ p.username, starCount := cfg.stars,
    roleLabel := selectedRole.toUpper,
    followersShown := p.followers.isSome,
    followersText := fmtNum p.followers,
    bioText := if p.bio = "" then "Stay Ritualized" else p.bio }

end Card

/-- An abstract image blob produced by the rasterizer. -/
structure Blob where
  bytes : List Nat
deriving DecidableEq, Repr

/-- Outcome of one htmlToImage.toBlob call at a given pixelRatio: the call
throws, resolves with a null blob, or resolves with a blob. -/
inductive RasterOutcome where
  | throws : RasterOutcome
  | nullBlob : RasterOutcome
  | blobOk : Blob → RasterOutcome
deriving DecidableEq, Repr

/-- Failure reported by renderCardBlob: the second toBlob call threw, or
it resolved null and the explicit "Image export returned null" error was
raised. -/
inductive RenderErr where
  | rasterThrew : RenderErr
  | nullResult : RenderErr
deriving DecidableEq, Repr

namespace Card

/-- renderCardBlob (src/unnamed/part_001 lines 96-117, src/app/page.js
lines 873-894): one attempt at pixelRatio 3; on an exception or a null
result, one retry at pixelRatio 2; a null second result raises an error.
The raster argument gives the outcome of a toBlob call per pixelRatio.
Returns the result together with the pixelRatio values attempted. -/
def renderCardBlob (raster : Nat → RasterOutcome) :
    Except RenderErr Blob × List Nat :=
  match raster 3 with
  | .blobOk b => (Except.ok b, [3])
  | _ =>
    match raster 2 with
    | .blobOk b => (Except.ok b, [3, 2])
    | .throws => (Except.error RenderErr.rasterThrew, [3, 2])
    | .nullBlob => (Except.error RenderErr.nullResult, [3, 2])

/-- Resource effects of anchorDownload (src/unnamed/part_001 lines
120-134): exactly one object URL is created, and exactly one revocation of
it is scheduled, after a 10 second grace period. -/
structure AnchorFx where
  objectURLsCreated : Nat
  revocationsScheduled : Nat
deriving DecidableEq, Repr

def anchorDownload : AnchorFx :=
  { objectURLsCreated := 1, revocationsScheduled := 1 }

/-- Content of the pre-opened browsing context at a given time. -/
inductive TabContent where
  | blank : TabContent
  | loading : TabContent
  | imagePage : TabContent
  | errorPage : TabContent
deriving DecidableEq, Repr

/-- Environment of one download invocation (src/unnamed/part_001 lines
260-348): whether the stage ref is set, the platform, whether window.open
yields a handle, whether the user closed the pre-opened tab before it is
used, whether document.write into it succeeds, the rasterizer, and
whether the FileReader of blobToDataURL resolves. -/
structure Env where
  stagePresent : Bool
  ios : Bool
  popupOpens : Bool
  tabClosedByUser : Bool
  tabWriteOk : Bool
  raster : Nat → RasterOutcome
  readerOk : Bool

/-- Observable trace of one download invocation. -/
structure Trace where
  started : Bool
  rasterAttempts : List Nat
  preTabOpened : Bool
  preTabContent : TabContent
  preTabClosedAtExit : Bool
  extraTabOpened : Bool
  objectURLsCreated : Nat
  revocationsScheduled : Nat
  failed : Bool
  exportingAtExit : Bool
  finalStatus : String
deriving DecidableEq, Repr

/-- The trace of the guard path: nothing ran, nothing was created, and
the exporting flag is left exactly as it was. -/
def noopT (exporting : Bool) : Trace :=
  { started := false, rasterAttempts := [], preTabOpened := false,
    preTabContent := TabContent.blank, preTabClosedAtExit := false,
    extraTabOpened := false, objectURLsCreated := 0, revocationsScheduled := 0,
    failed := false, exportingAtExit := exporting, finalStatus := "" }

/-- fillTabWithImage (lines 141-192): when the pre-opened tab is present
and not closed, the image page is written into it (a throwing write falls
back to direct navigation; either way it displays the image); otherwise a
direct window.open on the data URL is attempted. -/
def fillTabWithImage (present notClosed : Bool) (prior : TabContent) :
    TabContent × Bool :=
  if present && notClosed then (TabContent.imagePage, false)
  else (prior, true)

/-- The catch branch of download (lines 325-343): when the pre-opened tab
exists and is not closed, an error page is written into it (a failing
write leaves its previous content); the tab is not closed by the code.
Then the failure status is set. -/
def errorExit (e : Env) (preOpened : Bool) (c0 : TabContent) (tr : List Nat) : Trace :=
  { started := true, rasterAttempts := tr, preTabOpened := preOpened,
    preTabContent :=
      if preOpened && !e.tabClosedByUser then
        (if e.tabWriteOk then TabContent.errorPage else c0)
      else c0,
    preTabClosedAtExit := preOpened && e.tabClosedByUser,
    extraTabOpened := false, objectURLsCreated := 0, revocationsScheduled := 0,
    failed := true, exportingAtExit := false,
    finalStatus := "Export failed — tap to retry" }

/-- download (src/unnamed/part_001 lines 260-348). Guard: a missing stage
ref or an export already in flight returns immediately. On iOS a blank tab
is pre-opened synchronously and a loading page written into it; then the
card is rasterized through renderCardBlob; on success the image is either
written into the pre-opened tab (iOS) or delivered through anchorDownload;
any throw lands in errorExit; finally the exporting flag is cleared. -/
def download (exporting : Bool) (e : Env) : Trace :=
  if !e.stagePresent || exporting then noopT exporting
  else
    let preOpened := e.ios && e.popupOpens
    let c0 : TabContent :=
      if preOpened && !e.tabClosedByUser && e.tabWriteOk then TabContent.loading
      else TabContent.blank
    match renderCardBlob e.raster with
    | (Except.ok _, tr) =>
      if e.ios then
        if e.readerOk then
          let fill := fillTabWithImage preOpened (!e.tabClosedByUser) c0
          { started := true, rasterAttempts := tr, preTabOpened := preOpened,
            preTabContent := fill.1,
            preTabClosedAtExit := preOpened && e.tabClosedByUser,
            extraTabOpened := fill.2, objectURLsCreated := 0,
            revocationsScheduled := 0, failed := false, exportingAtExit := false,
            finalStatus := "Long-press the image to save it ✓" }
        else errorExit e preOpened c0 tr
      else
        { started := true, rasterAttempts := tr, preTabOpened := preOpened,
          preTabContent := c0, preTabClosedAtExit := preOpened && e.tabClosedByUser,
          extraTabOpened := false,
          objectURLsCreated := anchorDownload.objectURLsCreated,
          revocationsScheduled := anchorDownload.revocationsScheduled,
          failed := false, exportingAtExit := false,
          finalStatus := "Downloaded! ✓" }
    | (Except.error _, tr) => errorExit e preOpened c0 tr

end Card

namespace PageV1

/-- Environment of the first download variant of src/app/page.js (lines
181-238): stage ref, platform, popup availability, the single toBlob
outcome at pixelRatio 3, and the share capability branch. -/
structure EnvV1 where
  stagePresent : Bool
  ios : Bool
  popupOpens : Bool
  raster3 : RasterOutcome
  canShare : Bool
  shareOk : Bool

/-- Observable trace of the first download variant. -/
structure TraceV1 where
  started : Bool
  rasterAttempts : List Nat
  popupOpened : Bool
  popupClosedAtExit : Bool
  objectURLsCreated : Nat
  revocationsScheduled : Nat
  alerted : Bool
deriving DecidableEq, Repr

def noopV1 : TraceV1 :=
  { started := false, rasterAttempts := [], popupOpened := false,
    popupClosedAtExit := false, objectURLsCreated := 0,
    revocationsScheduled := 0, alerted := false }

/-- download, first variant of src/app/page.js (lines 181-238). Its guard
checks only the stage ref: the exporting argument, which models whether an
export is already in flight, is not consulted. A single toBlob call at
pixelRatio 3 is made (a null blob throws); on success either the share
sheet is used (closing the popup), or an object URL is created and either
shown in the popup (revoked after 60 s) or anchor-downloaded (revoked
after 2 s); the catch closes the popup and alerts. -/
def download (exporting : Bool) (e : EnvV1) : TraceV1 :=
  if !e.stagePresent then noopV1
  else
    let popup := e.ios && e.popupOpens
    match e.raster3 with
    | RasterOutcome.blobOk _ =>
      if e.canShare then
        if e.shareOk then
          { started := true, rasterAttempts := [3], popupOpened := popup,
            popupClosedAtExit := popup, objectURLsCreated := 0,
            revocationsScheduled := 0, alerted := false }
        else
          { started := true, rasterAttempts := [3], popupOpened := popup,
            popupClosedAtExit := popup, objectURLsCreated := 0,
            revocationsScheduled := 0, alerted := true }
      else if e.ios && popup then
        { started := true, rasterAttempts := [3], popupOpened := popup,
          popupClosedAtExit := false, objectURLsCreated := 1,
          revocationsScheduled := 1, alerted := false }
      else
        { started := true, rasterAttempts := [3], popupOpened := popup,
          popupClosedAtExit := false, objectURLsCreated := 1,
          revocationsScheduled := 1, alerted := false }
    | _ =>
      { started := true, rasterAttempts := [3], popupOpened := popup,
        popupClosedAtExit := popup, objectURLsCreated := 0,
        revocationsScheduled := 0, alerted := true }

end PageV1

/-! ## Theorems -/

theorem removeFirstAt_eq_erase (cs : List Char) : removeFirstAt cs = cs.erase '@' := by
  induction cs with
  | nil => rfl
  | cons c cs ih =>
    by_cases h : c = '@'
    · subst h; simp [removeFirstAt, List.erase_cons]
    · simp [removeFirstAt, List.erase_cons, h, ih]

theorem upstreamResponse_fetched (f : FetchOutcome) :
    (Api.upstreamResponse f).fetched = true := by
  cases f with
  | throws => rfl
  | returns r =>
    by_cases h : r.ok = true
    · cases hb : r.body <;> simp [Api.upstreamResponse, h, hb]
    · simp [Api.upstreamResponse, h]

/-- C1: a relay request whose url parses to a hostname that is neither an
allow-listed host nor a dot-suffix subdomain of one answers 403 without
performing the upstream fetch; https://pbs.twimg.com/profile.jpg is allowed
by exact membership, https://sub.twimg.com/x.jpg only by the dot-suffix
match on twimg.com, and https://evil.com/x.jpg is rejected with 403. -/
theorem relay_rejects_unlisted_hosts :
    (∀ (url host : String) (f : FetchOutcome),
      jsHostname url = some host → Api.hostAllowed host = false →
      (Api.GET (some url) f).status = 403 ∧ (Api.GET (some url) f).fetched = false) ∧
    Api.allowedHosts.contains "pbs.twimg.com" = true ∧
    (∀ f, (Api.GET (some "https://pbs.twimg.com/profile.jpg") f).fetched = true) ∧
    Api.allowedHosts.contains "sub.twimg.com" = false ∧
    strEndsWith "sub.twimg.com" ".twimg.com" = true ∧
    (∀ f, (Api.GET (some "https://sub.twimg.com/x.jpg") f).fetched = true) ∧
    (∀ f, (Api.GET (some "https://evil.com/x.jpg") f).status = 403 ∧
          (Api.GET (some "https://evil.com/x.jpg") f).fetched = false) := by
  refine ⟨?_, by decide, ?_, by decide, by decide, ?_, ?_⟩
  · intro url host f hparse hallow
    have hne : ¬ url = "" := by
      intro h; subst h; simp [jsHostname] at hparse
    simp [Api.GET, hne, hparse, hallow]
  · intro f
    have h : Api.GET (some "https://pbs.twimg.com/profile.jpg") f =
        Api.upstreamResponse f := rfl
    rw [h]; exact upstreamResponse_fetched f
  · intro f
    have h : Api.GET (some "https://sub.twimg.com/x.jpg") f =
        Api.upstreamResponse f := rfl
    rw [h]; exact upstreamResponse_fetched f
  · intro f
    constructor <;> rfl

/-- C1 witness: the theorem applied to the concrete blocked request. -/
theorem relay_rejects_unlisted_hosts_witness :
    jsHostname "https://evil.com/x.jpg" = some "evil.com" ∧
    Api.hostAllowed "evil.com" = false ∧
    (Api.GET (some "https://evil.com/x.jpg") FetchOutcome.throws).status = 403 ∧
    (Api.GET (some "https://evil.com/x.jpg") FetchOutcome.throws).fetched = false := by
  refine ⟨by decide, by decide, ?_, ?_⟩
  · exact (relay_rejects_unlisted_hosts.1 _ "evil.com" _ (by decide) (by decide)).1
  · exact (relay_rejects_unlisted_hosts.1 _ "evil.com" _ (by decide) (by decide)).2

/-- C5: the relay answers 400 for a missing or unparsable url, 403 for a
non-allow-listed host, 502 for an upstream non-success, 500 when the try
block throws, and otherwise 200 with the upstream body, the upstream
content-type (a generic image type when absent), the one-hour cache
directive, and the unrestricted cross-origin header; no other status
occurs. -/
theorem relay_status_contract :
    (∀ f, (Api.GET none f).status = 400 ∧ (Api.GET none f).fetched = false) ∧
    (∀ f, (Api.GET (some "") f).status = 400 ∧ (Api.GET (some "") f).fetched = false) ∧
    (∀ url f, jsHostname url = none →
      (Api.GET (some url) f).status = 400 ∧ (Api.GET (some url) f).fetched = false) ∧
    (∀ url host f, jsHostname url = some host → Api.hostAllowed host = false →
      (Api.GET (some url) f).status = 403 ∧ (Api.GET (some url) f).fetched = false) ∧
    (∀ url host, jsHostname url = some host → Api.hostAllowed host = true →
      (Api.GET (some url) FetchOutcome.throws).status = 500) ∧
    (∀ url host r, jsHostname url = some host → Api.hostAllowed host = true →
      r.ok = false → (Api.GET (some url) (FetchOutcome.returns r)).status = 502) ∧
    (∀ url host r, jsHostname url = some host → Api.hostAllowed host = true →
      r.ok = true → r.body = none →
      (Api.GET (some url) (FetchOutcome.returns r)).status = 500) ∧
    (∀ url host r bs, jsHostname url = some host → Api.hostAllowed host = true →
      r.ok = true → r.body = some bs →
      (Api.GET (some url) (FetchOutcome.returns r)).status = 200 ∧
      (Api.GET (some url) (FetchOutcome.returns r)).body = RelayBody.bytes bs ∧
      (Api.GET (some url) (FetchOutcome.returns r)).headers =
        [("content-type", Api.effectiveContentType r.contentType),
         ("cache-control", "public, max-age=3600, s-maxage=3600"),
         ("access-control-allow-origin", "*")]) ∧
    (∀ ct, ct ≠ "" → Api.effectiveContentType (some ct) = ct) ∧
    Api.effectiveContentType none = "image/jpeg" ∧
    (∀ u f, (Api.GET u f).status = 200 ∨ (Api.GET u f).status = 400 ∨
      (Api.GET u f).status = 403 ∨ (Api.GET u f).status = 500 ∨
      (Api.GET u f).status = 502) := by
  have hblocked : ∀ (url host : String) (f : FetchOutcome),
      jsHostname url = some host → Api.hostAllowed host = false →
      (Api.GET (some url) f).status = 403 ∧ (Api.GET (some url) f).fetched = false := by
    intro url host f hparse hallow
    have hne : ¬ url = "" := by
      intro h; subst h; simp [jsHostname] at hparse
    simp [Api.GET, hne, hparse, hallow]
  have hallowed : ∀ (url host : String) (f : FetchOutcome),
      jsHostname url = some host → Api.hostAllowed host = true →
      Api.GET (some url) f = Api.upstreamResponse f := by
    intro url host f hparse hallow
    have hne : ¬ url = "" := by
      intro h; subst h; simp [jsHostname] at hparse
    simp [Api.GET, hne, hparse, hallow]
  refine ⟨?_, ?_, ?_, hblocked, ?_, ?_, ?_, ?_, ?_, rfl, ?_⟩
  · intro f; exact ⟨rfl, rfl⟩
  · intro f; exact ⟨rfl, rfl⟩
  · intro url f hparse
    by_cases hne : url = ""
    · subst hne; exact ⟨rfl, rfl⟩
    · simp [Api.GET, hne, hparse]
  · intro url host hparse hallow
    rw [hallowed url host _ hparse hallow]; rfl
  · intro url host r hparse hallow hok
    rw [hallowed url host _ hparse hallow]
    simp [Api.upstreamResponse, hok]
  · intro url host r hparse hallow hok hb
    rw [hallowed url host _ hparse hallow]
    simp [Api.upstreamResponse, hok, hb]
  · intro url host r bs hparse hallow hok hb
    rw [hallowed url host _ hparse hallow]
    simp [Api.upstreamResponse, hok, hb]
  · intro ct h; simp [Api.effectiveContentType, h]
  · intro u f
    cases u with
    | none => right; left; rfl
    | some url =>
      by_cases hne : url = ""
      · subst hne; right; left; rfl
      · cases hh : jsHostname url with
        | none => right; left; simp [Api.GET, hne, hh]
        | some host =>
          by_cases ha : Api.hostAllowed host = true
          · have h := hallowed url host f hh ha
            rw [h]
            cases f with
            | throws => right; right; right; left; rfl
            | returns r =>
              by_cases hok : r.ok = true
              · cases hb : r.body with
                | none => right; right; right; left; simp [Api.upstreamResponse, hok, hb]
                | some bs => left; simp [Api.upstreamResponse, hok, hb]
              · right; right; right; right; simp [Api.upstreamResponse, hok]
          · have ha' : Api.hostAllowed host = false := by
              revert ha; cases Api.hostAllowed host <;> simp
            right; right; left; exact (hblocked url host f hh ha').1

/-- C5 witness: the theorem applied to a concrete successful relay. -/
theorem relay_status_contract_witness :
    jsHostname "https://pbs.twimg.com/a.png" = some "pbs.twimg.com" ∧
    Api.hostAllowed "pbs.twimg.com" = true ∧
    (Api.GET (some "https://pbs.twimg.com/a.png")
      (FetchOutcome.returns
        ⟨true, 200, some "image/png", some [7, 8]⟩)).status = 200 ∧
    (Api.GET (some "https://pbs.twimg.com/a.png")
      (FetchOutcome.returns
        ⟨true, 200, some "image/png", some [7, 8]⟩)).headers =
      [("content-type", Api.effectiveContentType (some "image/png")),
       ("cache-control", "public, max-age=3600, s-maxage=3600"),
       ("access-control-allow-origin", "*")] := by
  refine ⟨by decide, by decide, ?_, ?_⟩
  · exact (relay_status_contract.2.2.2.2.2.2.2.1 _ "pbs.twimg.com" _ [7, 8]
      (by decide) (by decide) rfl rfl).1
  · exact (relay_status_contract.2.2.2.2.2.2.2.1 _ "pbs.twimg.com" _ [7, 8]
      (by decide) (by decide) rfl rfl).2.2

theorem download_rasterAttempts (x : Bool) (e : Card.Env) :
    (Card.download x e).started = true →
    (Card.download x e).rasterAttempts = (Card.renderCardBlob e.raster).2 := by
  intro h
  by_cases hg : (!e.stagePresent || x) = true
  · simp [Card.download, hg, Card.noopT] at h
  · rcases hrc : Card.renderCardBlob e.raster with ⟨res, tr⟩
    simp only [Card.download, hg, if_false, Bool.false_eq_true, ite_false, hrc]
    cases res <;> split_ifs <;> simp [Card.errorExit]

/-- C2: when the first toBlob attempt at pixelRatio 3 throws or yields a
null blob, renderCardBlob makes exactly one further attempt, at pixelRatio
2, and then either returns that blob or surfaces the failure; a successful
first attempt is returned without retry, and no invocation ever attempts
more than the two pixel ratios 3 and 2. The download orchestration obtains
its blob through renderCardBlob, so its rasterization attempts follow the
same discipline. -/
theorem exporter_retries_once :
    (∀ raster : Nat → RasterOutcome,
      ((Card.renderCardBlob raster).2 = [3] ∨ (Card.renderCardBlob raster).2 = [3, 2]) ∧
      (∀ b, raster 3 = RasterOutcome.blobOk b →
        Card.renderCardBlob raster = (Except.ok b, [3])) ∧
      ((raster 3 = RasterOutcome.throws ∨ raster 3 = RasterOutcome.nullBlob) →
        (Card.renderCardBlob raster).2 = [3, 2] ∧
        (∀ b, raster 2 = RasterOutcome.blobOk b →
          (Card.renderCardBlob raster).1 = Except.ok b) ∧
        ((raster 2 = RasterOutcome.throws ∨ raster 2 = RasterOutcome.nullBlob) →
          ∃ err, (Card.renderCardBlob raster).1 = Except.error err))) ∧
    (∀ (x : Bool) (e : Card.Env), (Card.download x e).started = true →
      (Card.download x e).rasterAttempts = (Card.renderCardBlob e.raster).2) := by
  refine ⟨?_, download_rasterAttempts⟩
  intro raster
  refine ⟨?_, ?_, ?_⟩
  · cases h3 : raster 3 with
    | blobOk b => simp [Card.renderCardBlob, h3]
    | throws => cases h2 : raster 2 <;> simp [Card.renderCardBlob, h3, h2]
    | nullBlob => cases h2 : raster 2 <;> simp [Card.renderCardBlob, h3, h2]
  · intro b h3
    simp [Card.renderCardBlob, h3]
  · intro h3
    refine ⟨?_, ?_, ?_⟩
    · rcases h3 with h3 | h3 <;>
        cases h2 : raster 2 <;> simp [Card.renderCardBlob, h3, h2]
    · intro b h2
      rcases h3 with h3 | h3 <;> simp [Card.renderCardBlob, h3, h2]
    · intro h2
      rcases h3 with h3 | h3 <;> rcases h2 with h2 | h2 <;>
        simp [Card.renderCardBlob, h3, h2]

/-- C2 witness: a rasterizer that throws at pixelRatio 3 and succeeds at
pixelRatio 2, run through the theorem. -/
theorem exporter_retries_once_witness :
    (fun r => if r = 3 then RasterOutcome.throws else RasterOutcome.blobOk ⟨[7]⟩) 3 =
      RasterOutcome.throws ∧
    (Card.renderCardBlob
      (fun r => if r = 3 then RasterOutcome.throws else RasterOutcome.blobOk ⟨[7]⟩)).2 =
      [3, 2] ∧
    (Card.renderCardBlob
      (fun r => if r = 3 then RasterOutcome.throws else RasterOutcome.blobOk ⟨[7]⟩)).1 =
      Except.ok ⟨[7]⟩ := by
  refine ⟨rfl, ?_, ?_⟩
  · exact ((exporter_retries_once.1
      (fun r => if r = 3 then RasterOutcome.throws else RasterOutcome.blobOk ⟨[7]⟩)).2.2
      (Or.inl rfl)).1
  · exact ((exporter_retries_once.1
      (fun r => if r = 3 then RasterOutcome.throws else RasterOutcome.blobOk ⟨[7]⟩)).2.2
      (Or.inl rfl)).2.1 ⟨[7]⟩ rfl

theorem specTenths_eq (a den : Nat) (h : 0 < den) :
    specTenths a den = (2 * a + den) / (2 * den) := by
  have hden : ((den : ℚ)) ≠ 0 := by
    exact_mod_cast Nat.pos_iff_ne_zero.mp h
  unfold specTenths
  rw [round_eq, Int.floor_toNat]
  have hq : (a : ℚ) / (den : ℚ) + 1 / 2 =
      ((2 * a + den : ℕ) : ℚ) / ((2 * den : ℕ) : ℚ) := by
    push_cast
    field_simp
    ring
  rw [hq, Nat.floor_div_nat, Nat.floor_natCast]

theorem jsToFixed1_eq_specRound1_M (a : Nat) :
    jsToFixed1 a 1000000 = specRound1 a 100000 := by
  have h : (10 * a + 1000000 / 2) / 1000000 = specTenths a 100000 := by
    rw [specTenths_eq a 100000 (by norm_num)]
    have h5 : 10 * a + 1000000 / 2 = 5 * (2 * a + 100000) := by omega
    have h6 : (1000000 : ℕ) = 5 * 200000 := by norm_num
    rw [h5, h6, Nat.mul_div_mul_left _ _ (by norm_num : 0 < 5)]
  unfold jsToFixed1 specRound1
  rw [h]

theorem jsToFixed1_eq_specRound1_K (a : Nat) :
    jsToFixed1 a 1000 = specRound1 a 100 := by
  have h : (10 * a + 1000 / 2) / 1000 = specTenths a 100 := by
    rw [specTenths_eq a 100 (by norm_num)]
    have h5 : 10 * a + 1000 / 2 = 5 * (2 * a + 100) := by omega
    have h6 : (1000 : ℕ) = 5 * 200 := by norm_num
    rw [h5, h6, Nat.mul_div_mul_left _ _ (by norm_num : 0 < 5)]
  unfold jsToFixed1 specRound1
  rw [h]

/-- C10: fmtNum is total: a dash for an absent count; for n at least one
million, n divided by one million rounded to one decimal place with an M
suffix; for n between one thousand inclusive and one million exclusive,
n divided by one thousand rounded to one decimal place with a K suffix, so
999999 renders as 1000.0K and not 1.0M; and the plain decimal string for
n below one thousand. -/
theorem fmtNum_total :
    fmtNum none = "—" ∧
    (∀ n : Int, 1000000 ≤ n → fmtNum (some n) = specRound1 n.toNat 100000 ++ "M") ∧
    (∀ n : Int, 1000 ≤ n → n < 1000000 →
      fmtNum (some n) = specRound1 n.toNat 100 ++ "K") ∧
    fmtNum (some 999999) = "1000.0K" ∧
    (∀ n : Int, n < 1000 → fmtNum (some n) = toString n) := by
  refine ⟨rfl, ?_, ?_, by decide, ?_⟩
  · intro n hn
    rw [show fmtNum (some n) = jsToFixed1 n.toNat 1000000 ++ "M" by
      simp [fmtNum, hn]]
    rw [jsToFixed1_eq_specRound1_M]
  · intro n hn hn'
    have h1 : ¬ (1000000 : Int) ≤ n := by omega
    rw [show fmtNum (some n) = jsToFixed1 n.toNat 1000 ++ "K" by
      simp [fmtNum, h1, hn]]
    rw [jsToFixed1_eq_specRound1_K]
  · intro n hn
    have h1 : ¬ (1000000 : Int) ≤ n := by omega
    have h2 : ¬ (1000 : Int) ≤ n := by omega
    simp [fmtNum, h1, h2]

/-- C10 witness: the theorem applied at 1500000, 999999 and 42. -/
theorem fmtNum_total_witness :
    ((1000000 : Int) ≤ 1500000 ∧
      fmtNum (some 1500000) = specRound1 (1500000 : Int).toNat 100000 ++ "M") ∧
    ((42 : Int) < 1000 ∧ fmtNum (some 42) = toString (42 : Int)) := by
  constructor
  · exact ⟨by norm_num, fmtNum_total.2.1 1500000 (by norm_num)⟩
  · exact ⟨by norm_num, fmtNum_total.2.2.2.2 42 (by norm_num)⟩

theorem resolveProfile_username (u : String) (f : ProfileFetch) :
    (Card.resolveProfile u f).username = u := by
  cases f with
  | throws => rfl
  | resp ok json =>
    by_cases h : ok = true
    · cases json with
      | none => simp [Card.resolveProfile, h, Card.defaultProfile]
      | some j =>
        cases j with
        | none => simp [Card.resolveProfile, h, Card.defaultProfile]
        | some u' => simp [Card.resolveProfile, h]
    · simp [Card.resolveProfile, h, Card.defaultProfile]

theorem generateCard_profile (s : Card.UIState) (f : ProfileFetch)
    (hne : normalizeHandle s.handle ≠ "") (hrole : s.selectedRole ≠ "") :
    (Card.generateCard s f).1.profile =
      Card.resolveProfile (normalizeHandle s.handle) f ∧
    (Card.generateCard s f).1.showCard = true := by
  constructor <;> simp [Card.generateCard, hne, hrole]

/-- C3: the username stored in the generated profile record is the raw
handle with its at-sign removed and surrounding whitespace trimmed; for
the input "@Example " it is "Example", and the Mage role configuration
renders a card with 3 stars and the rarity label MAGE. -/
theorem handle_normalization :
    (∀ (s : Card.UIState) (f : ProfileFetch),
      (headIsAt s.handle = true ∨ jsTrim s.handle ≠ s.handle) →
      normalizeHandle s.handle ≠ "" →
      s.selectedRole ≠ "" →
      (Card.generateCard s f).1.profile.username = jsTrim (stripAt s.handle)) ∧
    normalizeHandle "@Example " = "Example" ∧
    (roleConfig "Mage").map RoleCfg.stars = some 3 ∧
    (roleConfig "Mage").map RoleCfg.rarity = some "MAGE" ∧
    (∀ (p : ProfileRecord) (cfg : RoleCfg), roleConfig "Mage" = some cfg →
      (Card.renderCard p "Mage" cfg).starCount = 3 ∧
      (Card.renderCard p "Mage" cfg).rarityBadge = "MAGE") := by
  refine ⟨?_, by decide, by decide, by decide, ?_⟩
  · intro s f _hscope hne hrole
    rw [(generateCard_profile s f hne hrole).1, resolveProfile_username]
    unfold normalizeHandle jsTrim stripAt
    rw [removeFirstAt_eq_erase]
  · intro p cfg hcfg
    have hm : roleConfig "Mage" =
        some ⟨3, "MAGE", "🔮", "#CC44FF", "#6622AA"⟩ := rfl
    rw [hm] at hcfg
    injection hcfg with h
    subst h
    exact ⟨rfl, rfl⟩

/-- C3 witness: the theorem applied to the concrete scenario of the claim. -/
theorem handle_normalization_witness :
    normalizeHandle "@Example " ≠ "" ∧
    (Card.generateCard { Card.initialState with handle := "@Example ", selectedRole := "Mage" } ProfileFetch.throws).1.profile.username = jsTrim (stripAt "@Example ") := by
  refine ⟨by decide, ?_⟩
  exact handle_normalization.1 _ ProfileFetch.throws (Or.inl rfl)
    (show normalizeHandle "@Example " ≠ "" by decide)
    (show ("Mage" : String) ≠ "" by decide)

/-- C4: when the profile fetch throws, returns a non-ok response, fails to
parse, or parses with no user object, the stored record is exactly the
default one for the normalized handle: default bio, empty avatar, absent
counts, and the card is still shown. -/
theorem fetch_failure_defaults :
    ∀ (s : Card.UIState) (f : ProfileFetch),
      normalizeHandle s.handle ≠ "" →
      s.selectedRole ≠ "" →
      (f = ProfileFetch.throws ∨ (∃ j, f = ProfileFetch.resp false j) ∨
        f = ProfileFetch.resp true none ∨ f = ProfileFetch.resp true (some none)) →
      (Card.generateCard s f).1.profile =
        Card.defaultProfile (normalizeHandle s.handle) ∧
      (Card.generateCard s f).1.profile.username = normalizeHandle s.handle ∧
      (Card.generateCard s f).1.profile.bio = "Stay Ritualized" ∧
      (Card.generateCard s f).1.profile.avatarUrl = "" ∧
      (Card.generateCard s f).1.profile.followers = none ∧
      (Card.generateCard s f).1.profile.following = none ∧
      (Card.generateCard s f).1.profile.tweets = none ∧
      (Card.generateCard s f).1.showCard = true := by
  intro s f hne hrole hf
  have hprof := (generateCard_profile s f hne hrole).1
  have hshow := (generateCard_profile s f hne hrole).2
  have hres : Card.resolveProfile (normalizeHandle s.handle) f =
      Card.defaultProfile (normalizeHandle s.handle) := by
    rcases hf with h | ⟨j, h⟩ | h | h <;> subst h <;> simp [Card.resolveProfile]
  rw [hprof, hres]
  exact ⟨rfl, rfl, rfl, rfl, rfl, rfl, rfl, hshow⟩

/-- C4 witness: the theorem applied to a concrete non-ok fetch. -/
theorem fetch_failure_defaults_witness :
    normalizeHandle "@Example " ≠ "" ∧
    (Card.generateCard { Card.initialState with handle := "@Example ", selectedRole := "Mage" } (ProfileFetch.resp false none)).1.profile = Card.defaultProfile "Example" := by
  refine ⟨by decide, ?_⟩
  have h := (fetch_failure_defaults
    { Card.initialState with handle := "@Example ", selectedRole := "Mage" }
    (ProfileFetch.resp false none)
    (show normalizeHandle "@Example " ≠ "" by decide)
    (show ("Mage" : String) ≠ "" by decide)
    (Or.inr (Or.inl ⟨none, rfl⟩))).1
  simpa using h

/-- C6: when the normalized handle is empty or no role is selected,
generateCard sets only the matching inline validation message, attempts no
fetch (the outcome is independent of the fetch oracle), and leaves the
profile, the card flag and every other state field unchanged. -/
theorem validation_atomic :
    ∀ (s : Card.UIState) (f : ProfileFetch),
      (normalizeHandle s.handle = "" ∨ s.selectedRole = "") →
      (Card.generateCard s f).2 = false ∧
      (Card.generateCard s f).1.error =
        (if normalizeHandle s.handle = "" then "Please enter your X/Twitter username"
         else "Please select your role") ∧
      (Card.generateCard s f).1.profile = s.profile ∧
      (Card.generateCard s f).1.showCard = s.showCard ∧
      (Card.generateCard s f).1.handle = s.handle ∧
      (Card.generateCard s f).1.selectedRole = s.selectedRole ∧
      (Card.generateCard s f).1.loading = s.loading ∧
      (Card.generateCard s f).1.exporting = s.exporting ∧
      (Card.generateCard s f).1.exportStatus = s.exportStatus ∧
      (∀ g, Card.generateCard s f = Card.generateCard s g) := by
  intro s f hv
  by_cases h1 : normalizeHandle s.handle = ""
  · simp [Card.generateCard, h1]
  · have h2 : s.selectedRole = "" := by tauto
    simp [Card.generateCard, h1, h2]

/-- C6 witness: the theorem applied to a whitespace-only handle. -/
theorem validation_atomic_witness :
    (normalizeHandle " " = "" ∨
      ({ Card.initialState with handle := " " } : Card.UIState).selectedRole = "") ∧
    (Card.generateCard { Card.initialState with handle := " " } ProfileFetch.throws).2 = false ∧
    (Card.generateCard { Card.initialState with handle := " " } ProfileFetch.throws).1.error = "Please enter your X/Twitter username" := by
  have h := validation_atomic { Card.initialState with handle := " " }
    ProfileFetch.throws (Or.inl (show normalizeHandle " " = "" by decide))
  refine ⟨Or.inl (by decide), h.1, ?_⟩
  have he := h.2.1
  simpa using he

/-- C9: reset unconditionally returns the handle, role, profile record,
error message, export status and card flag to their initial values (the
default profile shows USERNAME and the default bio with absent counts);
on any state whose transient loading and exporting flags are clear, as
after a completed export, it restores the full initial state, and it is
idempotent. -/
theorem reset_restores_initial :
    ∀ s : Card.UIState,
      (Card.reset s).handle = "" ∧
      (Card.reset s).selectedRole = "" ∧
      (Card.reset s).profile = Card.initialProfile ∧
      Card.initialProfile.displayName = "USERNAME" ∧
      Card.initialProfile.bio = "Stay Ritualized" ∧
      Card.initialProfile.followers = none ∧
      Card.initialProfile.following = none ∧
      Card.initialProfile.tweets = none ∧
      (Card.reset s).error = "" ∧
      (Card.reset s).exportStatus = "" ∧
      (Card.reset s).showCard = false ∧
      (s.loading = false → s.exporting = false → Card.reset s = Card.initialState) ∧
      Card.reset (Card.reset s) = Card.reset s := by
  intro s
  refine ⟨rfl, rfl, rfl, rfl, rfl, rfl, rfl, rfl, rfl, rfl, rfl, ?_, rfl⟩
  intro hl he
  cases s
  simp_all [Card.reset, Card.initialState]

/-- C9 witness: the theorem applied to a post-export state. -/
theorem reset_restores_initial_witness :
    ({ Card.initialState with handle := "abc", selectedRole := "Mage", showCard := true, exportStatus := "Downloaded! ✓" } : Card.UIState).loading = false ∧
    ({ Card.initialState with handle := "abc", selectedRole := "Mage", showCard := true, exportStatus := "Downloaded! ✓" } : Card.UIState).exporting = false ∧
    Card.reset { Card.initialState with handle := "abc", selectedRole := "Mage", showCard := true, exportStatus := "Downloaded! ✓" } = Card.initialState := by
  refine ⟨rfl, rfl, ?_⟩
  exact (reset_restores_initial
    { Card.initialState with handle := "abc", selectedRole := "Mage",
                             showCard := true, exportStatus := "Downloaded! ✓" }
    ).2.2.2.2.2.2.2.2.2.2.2.1 rfl rfl

/-- C7 counterexample: the first download variant of src/app/page.js
(lines 181-238) checks only the stage ref, not the exporting flag; invoked
while an export is already in flight (exporting true, stage present,
desktop environment, rasterizer succeeding) it is not a no-op: it runs and
starts another rasterization. -/
theorem download_guard_counterexample :
    (PageV1.download true
      ⟨true, false, false, RasterOutcome.blobOk ⟨[1]⟩, false, false⟩).started = true ∧
    (PageV1.download true
      ⟨true, false, false, RasterOutcome.blobOk ⟨[1]⟩, false, false⟩).rasterAttempts = [3] ∧
    (PageV1.download true
      ⟨true, false, false, RasterOutcome.blobOk ⟨[1]⟩, false, false⟩) ≠ PageV1.noopV1 := by
  refine ⟨rfl, rfl, ?_⟩
  decide

/-- C7 amended: in the download variants that do consult the in-flight
flag (src/unnamed/part_001 lines 260-261 and src/app/page.js lines
1111-1112), a download invocation while an export is in flight is a
no-op: nothing starts, no rasterization is attempted, no tab or object
URL is created, and the flag is left as it was. -/
theorem download_inflight_noop :
    ∀ e : Card.Env, Card.download true e = Card.noopT true := by
  intro e
  simp [Card.download]

theorem download_objectURL_balance (x : Bool) (e : Card.Env) :
    (Card.download x e).objectURLsCreated =
      (Card.download x e).revocationsScheduled := by
  by_cases hg : (!e.stagePresent || x) = true
  · simp [Card.download, hg, Card.noopT]
  · rcases hrc : Card.renderCardBlob e.raster with ⟨res, tr⟩
    simp only [Card.download, hg, Bool.false_eq_true, if_false, hrc]
    cases res <;> split_ifs <;> simp [Card.errorExit, Card.anchorDownload]

/-- C8 counterexample: on the failure path of the current download
(src/unnamed/part_001 lines 325-343), with iOS, a successfully pre-opened
tab that the user has not closed, and a rasterizer that always throws, the
export exits in failure with the pre-opened tab neither revoked nor
closed: it is left open, overwritten with an error page. -/
theorem pretab_not_closed_counterexample :
    (Card.download false
      ⟨true, true, true, false, true, fun _ => RasterOutcome.throws, true⟩).failed = true ∧
    (Card.download false
      ⟨true, true, true, false, true, fun _ => RasterOutcome.throws, true⟩).preTabOpened = true ∧
    (Card.download false
      ⟨true, true, true, false, true, fun _ => RasterOutcome.throws, true⟩).preTabClosedAtExit = false ∧
    (Card.download false
      ⟨true, true, true, false, true, fun _ => RasterOutcome.throws, true⟩).preTabContent = Card.TabContent.errorPage := by
  exact ⟨rfl, rfl, rfl, rfl⟩

/-- On any failing exit of download the pre-opened tab is handled by the
catch branch: it is never closed by the code, and when it is present, not
closed by the user, and writable, it ends up showing the error page. -/
theorem download_failed_props (x : Bool) (e : Card.Env)
    (h : (Card.download x e).failed = true) :
    (Card.download x e).preTabOpened = (e.ios && e.popupOpens) ∧
    (Card.download x e).preTabClosedAtExit =
      ((e.ios && e.popupOpens) && e.tabClosedByUser) ∧
    ((e.ios && e.popupOpens) = true → e.tabClosedByUser = false →
      e.tabWriteOk = true →
      (Card.download x e).preTabContent = Card.TabContent.errorPage) := by
  by_cases hg : (!e.stagePresent || x) = true
  · simp [Card.download, hg, Card.noopT] at h
  · rcases hrc : Card.renderCardBlob e.raster with ⟨res, tr⟩
    cases res with
    | ok b =>
      by_cases hios : e.ios = true
      · by_cases hrd : e.readerOk = true
        · exfalso; simp [Card.download, hg, hrc, hios, hrd] at h
        · refine ⟨?_, ?_, ?_⟩
          · simp [Card.download, Card.errorExit, hg, hrc, hios, hrd]
          · simp [Card.download, Card.errorExit, hg, hrc, hios, hrd]
          · intro hpre hclosed hw
            simp only [hios, Bool.true_and] at hpre
            simp [Card.download, Card.errorExit, hg, hrc, hios, hrd,
              hpre, hclosed, hw]
      · exfalso; simp [Card.download, hg, hrc, hios] at h
    | error err =>
      refine ⟨?_, ?_, ?_⟩
      · simp [Card.download, Card.errorExit, hg, hrc]
      · simp [Card.download, Card.errorExit, hg, hrc]
      · intro hpre hclosed hw
        simp [Card.download, Card.errorExit, hg, hrc, hpre, hclosed, hw]

/-- C8 amended: every exit path of download releases the object URLs it
created (created and scheduled revocations balance on all paths, in both
variants); but the pre-opened tab is not closed by the current variant: on
the failure path it remains open, overwritten in place with an error page,
while only the first page.js variant closes its popup when rasterization
fails. -/
theorem export_resource_release :
    (∀ (x : Bool) (e : Card.Env),
      (Card.download x e).objectURLsCreated =
        (Card.download x e).revocationsScheduled) ∧
    (∀ (x : Bool) (e : Card.Env),
      (Card.download x e).failed = true →
      (Card.download x e).preTabOpened = true →
      e.tabClosedByUser = false →
      (Card.download x e).preTabClosedAtExit = false ∧
      (e.tabWriteOk = true →
        (Card.download x e).preTabContent = Card.TabContent.errorPage)) ∧
    (∀ (x : Bool) (e : PageV1.EnvV1),
      (PageV1.download x e).objectURLsCreated =
        (PageV1.download x e).revocationsScheduled) ∧
    (∀ (x : Bool) (e : PageV1.EnvV1), e.stagePresent = true →
      (e.raster3 = RasterOutcome.throws ∨ e.raster3 = RasterOutcome.nullBlob) →
      (PageV1.download x e).popupClosedAtExit = (e.ios && e.popupOpens)) := by
  refine ⟨download_objectURL_balance, ?_, ?_, ?_⟩
  · intro x e hfail hopen hclosed
    obtain ⟨ho, hc, hcontent⟩ := download_failed_props x e hfail
    have hpre : (e.ios && e.popupOpens) = true := by rw [ho] at hopen; exact hopen
    constructor
    · rw [hc, hpre, hclosed]; rfl
    · exact fun hw => hcontent hpre hclosed hw
  · intro x e
    by_cases hs : e.stagePresent = true
    · simp only [PageV1.download, hs, Bool.not_true, Bool.false_or]
      cases e.raster3 <;> split_ifs <;> rfl
    · have hs' : e.stagePresent = false := by
        revert hs; cases e.stagePresent <;> simp
      simp [PageV1.download, hs', PageV1.noopV1]
  · intro x e hs hr
    rcases hr with hr | hr <;>
      simp [PageV1.download, hs, hr]

/-- C8 amended witness: the theorem applied to a concrete failing iOS
export with the tab open and a concrete failing first-variant export. -/
theorem export_resource_release_witness :
    ((Card.download false
      ⟨true, true, true, false, true, fun _ => RasterOutcome.nullBlob, true⟩).failed = true ∧
     (Card.download false
      ⟨true, true, true, false, true, fun _ => RasterOutcome.nullBlob, true⟩).preTabClosedAtExit = false) ∧
    (PageV1.download false
      ⟨true, true, true, RasterOutcome.throws, false, false⟩).popupClosedAtExit = (true && true) := by
  constructor
  · refine ⟨rfl, ?_⟩
    exact (export_resource_release.2.1 false
      ⟨true, true, true, false, true, fun _ => RasterOutcome.nullBlob, true⟩
      rfl rfl rfl).1
  · exact export_resource_release.2.2.2 false
      ⟨true, true, true, RasterOutcome.throws, false, false⟩ rfl (Or.inl rfl)
